import Mathlib

/-!
# GPU-Capstone: batch TIFF classification driver

A shallow embedding of `src/main.cpp` and the properties its specification states.

Conventions of the embedding

* `float` values are exact rationals (`ℚ`); the text `operator<<` produces for a
  `float` is the parameter `Env.fmt`.
* `uint32_t` and `size_t` arithmetic is arithmetic on `Nat` with an explicit
  `% 2 ^ 32` and `% 2 ^ 64`.
* Everything outside the program (the CUDA runtime, cuDNN, libtiff, `rand`, the
  directory listing) is an input: `Env`, `TiffFile`, `DirEntry`.
* The program state is the record `World`; it also carries instrumentation
  (the allocator log, the visited entries) that the properties are stated over.
* `exit(1)` is the constructor `Outcome.exit`.
* The report has two components. `World.report` is the text inserted into the
  `ofstream`, in insertion order. `World.reportFile` is the content of the file
  itself: the stream is block buffered (`Env.bufSize`), the file receives whole
  buffers only, and what is left in the buffer reaches the file when
  `output_file.close()` runs. `exit` does not destroy the automatic `ofstream` of
  `main`, so on that path the buffered text never reaches the file. The output
  file is taken to open.
* The source checks no CUDA or cuDNN status; the embedding follows its control
  flow, in which every such call returns and execution continues.
* The input folder is given as the sequence of entries its directory iterator
  yields, or `none` when the iterator cannot be constructed; the exception is
  not caught anywhere, so the process ends in `std::terminate`.
-/

namespace GpuCapstone

/-! ## Data model -/

/-- The cuDNN tensor layouts used by the program. -/
inductive TensorFormat where
  | NCHW
  | NHWC
  deriving DecidableEq, Repr

/-- The arguments of one `cudnnSetTensor4dDescriptor` call (element type is always
`CUDNN_DATA_FLOAT`). -/
structure TensorDesc where
  format : TensorFormat
  n : Int
  c : Int
  h : Int
  w : Int
  deriving DecidableEq, Repr

/-- A `float*` returned by `cudaMallocManaged`: the identity of the allocation and
the samples it holds. -/
structure DevBuf where
  id : Nat
  data : List ℚ

/-- A `cudnnHandle_t`; `valid` records whether `cudnnCreate` succeeded (the program
never looks at it). -/
structure CudnnHandle where
  valid : Bool
  deriving DecidableEq, Repr

/-- What libtiff answers for one file: whether `TIFFOpen` succeeds, the header
width and height, whether `_TIFFmalloc` and `TIFFReadRGBAImage` succeed, and the
packed pixel `raster i` the read leaves at raster index `i`. -/
structure TiffFile where
  opens : Bool
  width : Nat
  height : Nat
  mallocOk : Bool
  readOk : Bool
  raster : Nat → Nat

/-- One entry yielded by `fs::directory_iterator`. -/
structure DirEntry where
  path : String
  tiff : TiffFile

/-- The collaborators of one run. -/
structure Env where
  /-- the count `cudaGetDeviceCount` stores -/
  numGPUs : Int
  /-- the field `devProp.major` -/
  major : Int
  /-- the field `devProp.minor` -/
  minor : Int
  /-- whether `cudnnCreate` reports success -/
  cudnnCreateOk : Bool
  /-- the value of the `k`-th call of `rand()` -/
  rnd : Nat → Nat
  /-- the constant `RAND_MAX` -/
  RAND_MAX : Nat
  /-- the text `operator<<` writes for a `float` -/
  fmt : ℚ → String
  /-- the contents of freshly allocated managed memory -/
  junk : Nat → ℚ
  /-- the capacity of the stream buffer of `output_file`; 0 for an unbuffered stream -/
  bufSize : Nat

/-- The observable and instrumented state of a run. -/
structure World where
  /-- lines written to `std::cout` -/
  cout : List String := []
  /-- lines written to `std::cerr` -/
  cerr : List String := []
  /-- text inserted into `output_file`; `none` while the stream is not constructed -/
  report : Option String := none
  /-- content of the report file itself; `none` while the file is not created -/
  reportFile : Option String := none
  /-- whether `output_file.close()` has been executed -/
  reportClosed : Bool := false
  /-- whether `std::terminate` has been called for an uncaught exception -/
  terminated : Bool := false
  /-- number of `cudnnCreate` calls -/
  handlesCreated : Nat := 0
  /-- number of `cudnnDestroy` calls -/
  handlesDestroyed : Nat := 0
  /-- directory entries the loop has reached, in order -/
  visited : List String := []
  /-- paths handed to `TIFFOpen`, in order -/
  tiffOpened : List String := []
  /-- tensor descriptors created, in order -/
  descriptors : List TensorDesc := []
  /-- ids returned by `cudaMallocManaged`, in order -/
  allocated : List Nat := []
  /-- ids handed to `cudaFree`, in order -/
  freed : List Nat := []
  /-- ids allocated and not yet freed -/
  live : List Nat := []
  /-- number of `cudaFree` calls on an id that was not live -/
  badFrees : Nat := 0
  /-- the live ids at the moment each qualifying file starts to be processed -/
  fileStarts : List (List Nat) := []
  /-- number of `rand()` calls so far -/
  randCalls : Nat := 0

/-- A computation either returns to its caller or ends the process with `exit`. -/
inductive Outcome (α : Type) where
  | ret (a : α) (w : World)
  | exit (code : Nat) (w : World)

/-! ## Machine integers and the libtiff pixel macros -/

/-- Conversion of an unsigned 32-bit value to `int`. -/
def toInt32 (x : Nat) : Int :=
  if x % 2 ^ 32 < 2 ^ 31 then (x % 2 ^ 32 : Nat) else ((x % 2 ^ 32 : Nat) : Int) - 2 ^ 32

/-- Modelled from the spec: the libtiff macro `TIFFGetR` (tiffio.h, not under src),
the red channel, bits 0-7 of a packed pixel. -/
def TIFFGetR (abgr : Nat) : Nat := abgr &&& 0xff

/-- Modelled from the spec: the libtiff macro `TIFFGetG` (tiffio.h, not under src),
the green channel, bits 8-15 of a packed pixel. -/
def TIFFGetG (abgr : Nat) : Nat := (abgr >>> 8) &&& 0xff

/-- Modelled from the spec: the libtiff macro `TIFFGetB` (tiffio.h, not under src),
the blue channel, bits 16-23 of a packed pixel. -/
def TIFFGetB (abgr : Nat) : Nat := (abgr >>> 16) &&& 0xff

/-! ## The CUDA allocator -/

/-- The call `cudaMallocManaged(&p, count * sizeof(float))`: a fresh id and `count`
samples of unspecified content. The status code is ignored, as in the source. -/
def cudaMallocManaged (env : Env) (count : Nat) (w : World) : DevBuf × World :=
  let id := w.allocated.length
  (⟨id, (List.range count).map env.junk⟩,
    { w with allocated := w.allocated ++ [id], live := w.live ++ [id] })

/-- The call `cudaFree(p)`. -/
def cudaFree (p : DevBuf) (w : World) : World :=
  if p.id ∈ w.live then
    { w with freed := w.freed ++ [p.id], live := w.live.erase p.id }
  else
    { w with freed := w.freed ++ [p.id], badFrees := w.badFrees + 1 }

/-! ## `createCudaHandleAndOutputHWSpecs` (main.cpp 14-30) -/

/-- Logs the device count and the compute capability, creates the cuDNN handle and
returns it. No status is checked. -/
def createCudaHandleAndOutputHWSpecs (env : Env) (w : World) : CudnnHandle × World :=
  let w := { w with cout := w.cout ++ ["Found " ++ toString env.numGPUs ++ " GPUs."] }
  let w := { w with cout := w.cout ++
    ["Compute capability: " ++ toString env.major ++ "." ++ toString env.minor] }
  let handle_ : CudnnHandle := ⟨env.cudnnCreateOk⟩
  let w := { w with handlesCreated := w.handlesCreated + 1 }
  let w := { w with cout := w.cout ++ ["Created cuDNN handle"] }
  (handle_, w)

/-! ## `loadImageAndPreprocess` (main.cpp 32-75) -/

/-- The statement `npixels = width * height`: a product of two `uint32_t`. -/
def npixels (width height : Nat) : Nat :=
  ((width % 2 ^ 32) * (height % 2 ^ 32)) % 2 ^ 32

/-- One iteration of the conversion loop (main.cpp 68-70). -/
def normalizeStep (raster : Nat → Nat) (input_data : List ℚ) (i : Nat) : List ℚ :=
  let d := input_data.set (i * 3 + 0) ((TIFFGetR (raster i) : ℚ) / 255)
  let d := d.set (i * 3 + 1) ((TIFFGetG (raster i) : ℚ) / 255)
  d.set (i * 3 + 2) ((TIFFGetB (raster i) : ℚ) / 255)

/-- The conversion loop `for (size_t i = 0; i < npixels; ++i)` (main.cpp 67-71). -/
def normalizeLoop (raster : Nat → Nat) (count : Nat) (input_data : List ℚ) : List ℚ :=
  (List.range count).foldl (normalizeStep raster) input_data

/-- The tuple `loadImageAndPreprocess` returns. -/
structure Loaded where
  input_desc : TensorDesc
  input_data : DevBuf
  n : Int
  h : Int
  w : Int

/-- The function `loadImageAndPreprocess(filePath)`; `tiff` is what libtiff answers for
`filePath`. The calls `TIFFClose` and `_TIFFfree` leave the observed state unchanged. -/
def loadImageAndPreprocess (env : Env) (filePath : String) (tiff : TiffFile) (w : World) :
    Outcome Loaded :=
  let w := { w with tiffOpened := w.tiffOpened ++ [filePath] }
  if !tiff.opens then
    .exit 1 { w with cerr := w.cerr ++ ["Error: Could not open TIFF file"] }
  else
    let width := tiff.width % 2 ^ 32
    let height := tiff.height % 2 ^ 32
    let count := npixels width height
    if !tiff.mallocOk then
      .exit 1 { w with cerr := w.cerr ++ ["Error: Could not allocate memory for raster"] }
    else if !tiff.readOk then
      .exit 1 { w with cerr := w.cerr ++ ["Error: Could not read TIFF image"] }
    else
      let input_desc : TensorDesc := ⟨.NHWC, 1, 3, toInt32 height, toInt32 width⟩
      let w := { w with descriptors := w.descriptors ++ [input_desc] }
      let (buf, w) := cudaMallocManaged env ((count * 3 * 4) % 2 ^ 64 / 4) w
      let input_data := normalizeLoop tiff.raster count buf.data
      .ret ⟨input_desc, { buf with data := input_data }, 1, toInt32 height, toInt32 width⟩ w

/-! ## `runCuDnnModel` (main.cpp 77-91) -/

/-- One iteration of the scoring loop: `output_data[i] = (float) rand() / RAND_MAX`. -/
def randStep (env : Env) (st : List ℚ × Nat) (i : Nat) : List ℚ × Nat :=
  (st.1.set i ((env.rnd st.2 : ℚ) / (env.RAND_MAX : ℚ)), st.2 + 1)

/-- The function `runCuDnnModel(handle_, input_desc, input_data, num_classes)`. -/
def runCuDnnModel (env : Env) (_handle : CudnnHandle) (_input_desc : TensorDesc)
    (_input_data : DevBuf) (num_classes : Nat) (w : World) : DevBuf × World :=
  let output_desc : TensorDesc := ⟨.NCHW, 1, num_classes, 1, 1⟩
  let w := { w with descriptors := w.descriptors ++ [output_desc] }
  let (buf, w) := cudaMallocManaged env ((num_classes * 4) % 2 ^ 64 / 4) w
  let st := (List.range num_classes).foldl (randStep env) (buf.data, w.randCalls)
  ({ buf with data := st.1 }, { w with randCalls := st.2 })

/-! ## `printClassificationResults` (main.cpp 93-103) -/

/-- The loop of `std::max_element`: `cur` is the index of the element under the
iterator, `largest` the index kept so far and `best` the value it points to. -/
def max_element_loop : List ℚ → Nat → Nat → ℚ → Nat
  | [], _, largest, _ => largest
  | x :: xs, cur, largest, best =>
    if best < x then max_element_loop xs (cur + 1) cur x
    else max_element_loop xs (cur + 1) largest best

/-- The expression `std::max_element(first, last) - first`. On an empty range the
algorithm returns `last`, at distance 0. -/
def max_element : List ℚ → Nat
  | [] => 0
  | x :: xs => max_element_loop xs 1 0 x

/-- The function `printClassificationResults`: `output_file` is the text inserted so
far, `output_data` the `num_classes` scores the pointer refers to; the result
is the text after the call. -/
def printClassificationResults (env : Env) (output_file : String) (file_name : String)
    (output_data : List ℚ) : String :=
  let max_idx := max_element output_data
  let out := output_file ++ "File: " ++ file_name ++ "\n"
  let out := out ++ "Predicted class: " ++ toString max_idx ++ "\n"
  let out := out ++ "Class probabilities: "
  let out := output_data.foldl (fun o x => o ++ env.fmt x ++ " ") out
  out ++ "\n\n"

/-! ## The candidate filter: `fs::path::extension` -/

/-- The characters of `path::filename()`: what follows the last directory
separator. -/
def filenameChars (p : List Char) : List Char :=
  p.foldl (fun acc c => if c = '/' then [] else acc ++ [c]) []

/-- The suffix that starts at the rightmost period of `cs`, when there is one. -/
def fromLastDot : List Char → Option (List Char)
  | [] => none
  | c :: cs =>
    match fromLastDot cs with
    | some e => some e
    | none => if c = '.' then some (c :: cs) else none

/-- The characters of `path::extension()` for a filename: empty for the special
names dot and dot-dot; otherwise the suffix from the rightmost period on, where a
period that is the first character of the filename does not count. -/
def extensionChars (fn : List Char) : List Char :=
  if fn = ['.'] ∨ fn = ['.', '.'] then []
  else
    match fn with
    | [] => []
    | _ :: cs => (fromLastDot cs).getD []

/-- The value of `entry.path().extension()`. -/
def extension (path : String) : String :=
  String.mk (extensionChars (filenameChars path.data))

/-- The condition of main.cpp line 120. -/
def qualifies (path : String) : Bool :=
  extension path == ".tiff" || extension path == ".tif"

/-! ## The stream buffer of `output_file` -/

/-- The part of the inserted text that a stream with a buffer of `bufSize`
characters has handed to the file: whole buffers only. An unbuffered stream
(`bufSize = 0`) hands over everything. -/
def flushedPrefix (bufSize : Nat) (text : String) : String :=
  if bufSize = 0 then text
  else String.mk (text.data.take (bufSize * (text.data.length / bufSize)))

/-- The exit status a shell reports for a process ended by `abort` (128 + `SIGABRT`). -/
def abortStatus : Nat := 134

/-! ## `main` (main.cpp 105-135) -/

/-- The body of the `for` loop over the directory iterator (main.cpp 119-128), on
the entries that remain. -/
def batchLoop (env : Env) (handle_ : CudnnHandle) (num_classes : Nat) :
    List DirEntry → World → Outcome Unit
  | [], w => .ret () w
  | entry :: rest, w =>
    let w := { w with visited := w.visited ++ [entry.path] }
    if qualifies entry.path then
      let w := { w with fileStarts := w.fileStarts ++ [w.live] }
      match loadImageAndPreprocess env entry.path entry.tiff w with
      | .exit code w => .exit code w
      | .ret img w =>
        let (output_data, w) :=
          runCuDnnModel env handle_ img.input_desc img.input_data num_classes w
        let w := { w with report := w.report.map fun f =>
          printClassificationResults env f entry.path output_data.data }
        let w := { w with reportFile := w.report.map (flushedPrefix env.bufSize) }
        let w := cudaFree img.input_data w
        let w := cudaFree output_data w
        batchLoop env handle_ num_classes rest w
    else
      batchLoop env handle_ num_classes rest w

/-- The function `main(argc, argv)`: `argv` has `argc` elements and `folder` is what
the filesystem answers for `argv[1]`: the sequence of entries the directory iterator
yields, or `none` when its construction throws (a missing or unreadable folder, or a
path that is not a directory). The result is the exit status of the process and the
final state. -/
def main (env : Env) (argv : List String) (folder : Option (List DirEntry)) : Nat × World :=
  let w : World := {}
  if argv.length < 3 then
    (1, { w with cerr := w.cerr ++
      ["Usage: " ++ argv.getD 0 "" ++ " <input_folder> <output_file.txt>"] })
  else
    let num_classes := 10
    let (handle_, w) := createCudaHandleAndOutputHWSpecs env w
    let w := { w with report := some "", reportFile := some "" }
    match folder with
    | none => (abortStatus, { w with terminated := true })
    | some dir =>
      match batchLoop env handle_ num_classes dir w with
      | .exit code w => (code, w)
      | .ret _ w =>
        let w := { w with handlesDestroyed := w.handlesDestroyed + 1 }
        let w := { w with cout := w.cout ++ ["Destroyed cuDNN handle."] }
        let w := { w with reportFile := w.report, reportClosed := true }
        (0, w)

/-! ## Specification-level descriptions -/

/-- A file decodes when `TIFFOpen`, `_TIFFmalloc` and `TIFFReadRGBAImage` all
succeed. -/
def decodes (t : TiffFile) : Bool := t.opens && t.mallocOk && t.readOk

/-- The scores of a call of `runCuDnnModel` that starts after `k` calls of `rand`. -/
def scoresAt (env : Env) (num_classes k : Nat) : List ℚ :=
  (List.range num_classes).map fun i => (env.rnd (k + i) : ℚ) / (env.RAND_MAX : ℚ)

/-- Concatenation of a list of texts. -/
def concat : List String → String
  | [] => ""
  | s :: ss => s ++ concat ss

/-- The record the program writes for one file: every score is followed by one
space. -/
def recordText (env : Env) (file_name : String) (scores : List ℚ) : String :=
  "File: " ++ file_name ++ "\n" ++
  ("Predicted class: " ++ toString (max_element scores) ++ "\n") ++
  ("Class probabilities: " ++ concat (scores.map fun x => env.fmt x ++ " ") ++ "\n\n")

/-- The record as the specification words it: the scores joined by single spaces. -/
def recordAsSpecified (env : Env) (file_name : String) (scores : List ℚ) : String :=
  "File: " ++ file_name ++ "\n" ++
  ("Predicted class: " ++ toString (max_element scores) ++ "\n") ++
  ("Class probabilities: " ++ " ".intercalate (scores.map env.fmt) ++ "\n\n")

/-- The records of the files `qs`, in order, when the first of them starts after
`k` calls of `rand`: each file consumes `num_classes` calls. -/
def recordsSeq (env : Env) (num_classes : Nat) : Nat → List DirEntry → List String
  | _, [] => []
  | k, e :: es =>
    recordText env e.path (scoresAt env num_classes k) ::
      recordsSeq env num_classes (k + num_classes) es

/-- The qualifying entries of a listing, in iteration order. -/
def qualifying (dir : List DirEntry) : List DirEntry :=
  dir.filter fun e => qualifies e.path

/-- Every qualifying entry of the listing decodes. -/
def allDecode (dir : List DirEntry) : Prop :=
  ∀ e ∈ dir, qualifies e.path = true → decodes e.tiff = true

/-- The 8-bit channel value that sample `j` of the input buffer is computed from:
red, green or blue of pixel `j / 3`, by `j % 3`. -/
def channelAt (raster : Nat → Nat) (j : Nat) : Nat :=
  if j % 3 = 0 then TIFFGetR (raster (j / 3))
  else if j % 3 = 1 then TIFFGetG (raster (j / 3))
  else TIFFGetB (raster (j / 3))

/-- The state after one successful iteration of the loop body on the qualifying
entry `e`, started in `w` with no live buffer. -/
def afterFile (env : Env) (nc : Nat) (e : DirEntry) (w : World) : World :=
  { w with
    report := w.report.map fun f => f ++ recordText env e.path (scoresAt env nc w.randCalls)
    reportFile := w.report.map fun f =>
      flushedPrefix env.bufSize (f ++ recordText env e.path (scoresAt env nc w.randCalls))
    visited := w.visited ++ [e.path]
    tiffOpened := w.tiffOpened ++ [e.path]
    descriptors := w.descriptors ++
      [⟨.NHWC, 1, 3, toInt32 (e.tiff.height % 2 ^ 32), toInt32 (e.tiff.width % 2 ^ 32)⟩,
       ⟨.NCHW, 1, nc, 1, 1⟩]
    allocated := w.allocated ++ [w.allocated.length, w.allocated.length + 1]
    freed := w.freed ++ [w.allocated.length, w.allocated.length + 1]
    live := []
    fileStarts := w.fileStarts ++ [[]]
    randCalls := w.randCalls + nc }

/-- The relation between the state `w` before and the state `w'` after the loop has
run over the entries `dir`, all of whose qualifying entries decode. -/
structure LoopPost (env : Env) (nc : Nat) (dir : List DirEntry) (w w' : World) : Prop where
  live : w'.live = []
  report : w'.report =
    w.report.map fun f => f ++ concat (recordsSeq env nc w.randCalls (qualifying dir))
  randCalls : w'.randCalls = w.randCalls + nc * (qualifying dir).length
  allocated : w'.allocated =
    w.allocated ++ List.range' w.allocated.length (2 * (qualifying dir).length)
  freed : w'.freed = w.freed ++ List.range' w.allocated.length (2 * (qualifying dir).length)
  badFrees : w'.badFrees = w.badFrees
  fileStarts : w'.fileStarts = w.fileStarts ++ List.replicate (qualifying dir).length []
  visited : w'.visited = w.visited ++ dir.map fun e => e.path
  tiffOpened : w'.tiffOpened = w.tiffOpened ++ (qualifying dir).map fun e => e.path
  cout : w'.cout = w.cout
  cerr : w'.cerr = w.cerr
  handlesCreated : w'.handlesCreated = w.handlesCreated
  handlesDestroyed : w'.handlesDestroyed = w.handlesDestroyed
  reportClosed : w'.reportClosed = w.reportClosed
  terminated : w'.terminated = w.terminated
  reportFile : w.reportFile = w.report.map (flushedPrefix env.bufSize) →
    w'.reportFile = w'.report.map (flushedPrefix env.bufSize)

/-- The state in which the directory loop starts: the three lines logged by
`createCudaHandleAndOutputHWSpecs`, one cuDNN handle, an open and empty report. -/
def startWorld (env : Env) : World :=
  { cout := ["Found " ++ toString env.numGPUs ++ " GPUs.",
             "Compute capability: " ++ toString env.major ++ "." ++ toString env.minor,
             "Created cuDNN handle"],
    handlesCreated := 1,
    report := some "",
    reportFile := some "" }

/-! ## Concrete inputs -/

/-- A float formatter that renders the three scores of the end-to-end scenario. -/
def stubFmt (q : ℚ) : String :=
  if q = 1 / 10 then "0.1" else if q = 9 / 10 then "0.9" else if q = 1 / 5 then "0.2" else "?"

/-- A machine with no accelerator: device count 0 and a cuDNN handle that fails to
initialise. -/
def noDeviceEnv : Env :=
  { numGPUs := 0, major := 0, minor := 0, cudnnCreateOk := false,
    rnd := fun k => k % 7, RAND_MAX := 6, fmt := stubFmt, junk := fun _ => 0,
    bufSize := 8192 }

/-- A machine with one accelerator. -/
def oneDeviceEnv : Env :=
  { numGPUs := 1, major := 8, minor := 6, cudnnCreateOk := true,
    rnd := fun k => k % 7, RAND_MAX := 6, fmt := stubFmt, junk := fun _ => 0,
    bufSize := 8192 }

/-- A 2×2 all-white image. -/
def whiteTiff : TiffFile :=
  { opens := true, width := 2, height := 2, mallocOk := true, readOk := true,
    raster := fun _ => 0xffffffff }

/-- A file libtiff opens but whose pixels it cannot read. -/
def corruptTiff : TiffFile :=
  { opens := true, width := 2, height := 2, mallocOk := true, readOk := false,
    raster := fun _ => 0 }

/-- A file that is not an image at all: `TIFFOpen` fails. -/
def notTiff : TiffFile :=
  { opens := false, width := 0, height := 0, mallocOk := false, readOk := false,
    raster := fun _ => 0 }

/-- A header of 65537 × 65536 pixels, whose product does not fit 32 bits. -/
def wideTiff : TiffFile :=
  { opens := true, width := 65537, height := 65536, mallocOk := true, readOk := true,
    raster := fun _ => 0xffffffff }

/-- A command line with both arguments. -/
def sampleArgv : List String := ["classify", "in", "out.txt"]

/-- A directory with two images and two entries of other kinds. -/
def sampleDir : List DirEntry :=
  [⟨"in/white.tiff", whiteTiff⟩, ⟨"in/image.png", notTiff⟩, ⟨"in/photo.TIFF", notTiff⟩,
   ⟨"in/scan.tif", whiteTiff⟩]

/-- A header of 3 × 1431655766 pixels, whose product does not fit 32 bits. -/
def tallTiff : TiffFile :=
  { opens := true, width := 3, height := 1431655766, mallocOk := true, readOk := true,
    raster := fun _ => 0xffffffff }

/-- A valid image followed by a corrupt one. -/
def validThenCorrupt : List DirEntry :=
  [⟨"in/white.tiff", whiteTiff⟩, ⟨"in/bad.tiff", corruptTiff⟩]

/-- A corrupt image followed by a valid one. -/
def corruptThenValid : List DirEntry :=
  [⟨"in/bad.tiff", corruptTiff⟩, ⟨"in/white.tiff", whiteTiff⟩]

/-! ## Lemmas: the report text and the arg-max scan -/

theorem foldl_scores (fmt : ℚ → String) (l : List ℚ) (out : String) :
    l.foldl (fun o x => o ++ fmt x ++ " ") out
      = out ++ concat (l.map fun x => fmt x ++ " ") := by
  induction l generalizing out with
  | nil => simp [concat]
  | cons x xs ih =>
    simp only [List.foldl_cons, List.map_cons, concat]
    rw [ih]
    simp only [String.append_assoc]

theorem print_eq (env : Env) (out f : String) (s : List ℚ) :
    printClassificationResults env out f s = out ++ recordText env f s := by
  simp only [printClassificationResults, recordText]
  rw [foldl_scores]
  simp only [String.append_assoc]

/-- The first-maximum invariant. -/
theorem max_element_loop_inv (xs : List ℚ) : ∀ (pre : List ℚ) (largest : Nat) (best : ℚ),
    pre[largest]? = some best →
    (∀ (j : Nat) (x : ℚ), pre[j]? = some x → x ≤ best) →
    (∀ (j : Nat) (x : ℚ), j < largest → pre[j]? = some x → x < best) →
    ∃ v, (pre ++ xs)[max_element_loop xs pre.length largest best]? = some v ∧
      (∀ (j : Nat) (x : ℚ), (pre ++ xs)[j]? = some x → x ≤ v) ∧
      (∀ (j : Nat) (x : ℚ), j < max_element_loop xs pre.length largest best →
        (pre ++ xs)[j]? = some x → x < v) := by
  induction xs with
  | nil =>
    intro pre largest best h1 h2 h3
    exact ⟨best, by simpa [max_element_loop] using h1, by simpa using h2,
      by simpa [max_element_loop] using h3⟩
  | cons y ys ih =>
    intro pre largest best h1 h2 h3
    have hlen : (pre ++ [y]).length = pre.length + 1 := by simp
    have happ : pre ++ y :: ys = (pre ++ [y]) ++ ys := by simp
    have hget : ∀ (j : Nat) (x : ℚ), (pre ++ [y])[j]? = some x → (pre[j]? = some x) ∨ (j = pre.length ∧ x = y) := by
      intro j x hx
      rcases Nat.lt_or_ge j pre.length with hj | hj
      · left; rwa [List.getElem?_append_left hj] at hx
      · right
        rw [List.getElem?_append_right hj] at hx
        rcases Nat.eq_zero_or_pos (j - pre.length) with h0 | h0
        · rw [h0] at hx; simp at hx; exact ⟨by omega, hx.symm⟩
        · have : [y][j - pre.length]? = none := by simp; omega
          rw [this] at hx; cases hx
    have hlt : largest < pre.length := by
      by_contra hc
      have : pre[largest]? = none := by simp; omega
      rw [this] at h1; cases h1
    unfold max_element_loop
    rw [happ, ← hlen]
    split_ifs with hb
    · apply ih
      · simp
      · intro j x hx
        rcases hget j x hx with h | ⟨_, h⟩
        · exact le_of_lt (lt_of_le_of_lt (h2 j x h) hb)
        · exact h ▸ le_refl _
      · intro j x hj hx
        rcases hget j x hx with h | ⟨h, _⟩
        · exact lt_of_le_of_lt (h2 j x h) hb
        · omega
    · apply ih
      · rw [List.getElem?_append_left hlt]; exact h1
      · intro j x hx
        rcases hget j x hx with h | ⟨_, h⟩
        · exact h2 j x h
        · exact h ▸ not_lt.mp hb
      · intro j x hj hx
        rcases hget j x hx with h | ⟨h, _⟩
        · exact h3 j x hj h
        · omega

theorem max_element_spec (s : List ℚ) (h : s ≠ []) :
    ∃ v, s[max_element s]? = some v ∧ (∀ (j : Nat) (x : ℚ), s[j]? = some x → x ≤ v) ∧
      (∀ (j : Nat) (x : ℚ), j < max_element s → s[j]? = some x → x < v) := by
  cases s with
  | nil => exact absurd rfl h
  | cons y ys =>
    have := max_element_loop_inv ys [y] 0 y (by simp)
      (by
        intro j x hx
        cases j with
        | zero => simp at hx; exact hx ▸ le_refl _
        | succ n => simp at hx)
      (by intro j x hj; omega)
    simpa [max_element] using this

/-! ## Lemmas: the conversion loop and the scoring loop -/

theorem normalizeStep_length (raster : Nat → Nat) (buf : List ℚ) (i : Nat) :
    (normalizeStep raster buf i).length = buf.length := by
  simp [normalizeStep]

theorem normalizeStep_getElem? (raster : Nat → Nat) (buf : List ℚ) (i j : Nat)
    (h : i * 3 + 2 < buf.length) :
    (normalizeStep raster buf i)[j]? =
      if j / 3 = i then some ((channelAt raster j : ℚ) / 255) else buf[j]? := by
  simp only [normalizeStep, List.getElem?_set, List.length_set, channelAt]
  by_cases h2 : i * 3 + 2 = j
  · have e1 : j / 3 = i := by omega
    have e2 : j % 3 = 2 := by omega
    simp [h2, e1, e2]
    omega
  · by_cases h1 : i * 3 + 1 = j
    · have e1 : j / 3 = i := by omega
      have e2 : j % 3 = 1 := by omega
      have e3 : i * 3 + 1 < buf.length := by omega
      simp [h2, h1, e1, e2]
      omega
    · by_cases h0 : i * 3 + 0 = j
      · have e1 : j / 3 = i := by omega
        have e2 : j % 3 = 0 := by omega
        simp [h2, h1, h0, e1, e2]
        omega
      · have e1 : ¬ j / 3 = i := by omega
        have h0' : ¬ i * 3 = j := by omega
        simp [h2, h1, h0', e1]

theorem normalizeLoop_length (raster : Nat → Nat) (n : Nat) (buf : List ℚ) :
    (normalizeLoop raster n buf).length = buf.length := by
  induction n with
  | zero => simp [normalizeLoop]
  | succ n ih =>
    simp only [normalizeLoop, List.range_succ, List.foldl_append, List.foldl_cons,
      List.foldl_nil] at ih ⊢
    rw [normalizeStep_length, ih]

theorem normalizeLoop_getElem? (raster : Nat → Nat) (n : Nat) (buf : List ℚ)
    (h : 3 * n ≤ buf.length) (j : Nat) :
    (normalizeLoop raster n buf)[j]? =
      if j < 3 * n then some ((channelAt raster j : ℚ) / 255) else buf[j]? := by
  induction n with
  | zero => simp [normalizeLoop]
  | succ n ih =>
    have ih := ih (by omega)
    have hl := normalizeLoop_length raster n buf
    simp only [normalizeLoop, List.range_succ, List.foldl_append, List.foldl_cons,
      List.foldl_nil] at ih hl ⊢
    rw [normalizeStep_getElem? _ _ _ _ (by rw [hl]; omega), ih]
    by_cases c1 : j / 3 = n
    · have : j < 3 * (n + 1) := by omega
      simp [c1, this]
    · by_cases c2 : j < 3 * n
      · have : j < 3 * (n + 1) := by omega
        simp [c1, c2, this]
      · have : ¬ j < 3 * (n + 1) := by omega
        simp [c1, c2, this]

theorem randLoop_spec (env : Env) (n : Nat) (buf : List ℚ) (c : Nat) :
    ((List.range n).foldl (randStep env) (buf, c)).2 = c + n ∧
    ((List.range n).foldl (randStep env) (buf, c)).1.length = buf.length ∧
    ∀ j : Nat, ((List.range n).foldl (randStep env) (buf, c)).1[j]? =
      if j < n ∧ j < buf.length then some ((env.rnd (c + j) : ℚ) / (env.RAND_MAX : ℚ))
      else buf[j]? := by
  induction n with
  | zero => simp
  | succ n ih =>
    obtain ⟨h1, h2, h3⟩ := ih
    simp only [List.range_succ, List.foldl_append, List.foldl_cons, List.foldl_nil]
    refine ⟨by simp [randStep, h1]; omega, by simp [randStep, h2], ?_⟩
    intro j
    simp only [randStep, List.getElem?_set, h1, h2, h3]
    by_cases c1 : n = j
    · subst c1
      by_cases c2 : n < buf.length
      · simp [c2]
      · simp [c2]
        omega
    · by_cases c2 : j < n
      · have : j < n + 1 := by omega
        simp [c1, c2, this]
      · have : ¬ j < n + 1 := by omega
        simp [c1, c2, this]

theorem randLoop_data (env : Env) (n : Nat) (c : Nat) :
    ((List.range n).foldl (randStep env) ((List.range n).map env.junk, c)).1
      = scoresAt env n c := by
  apply List.ext_getElem?
  intro j
  rw [(randLoop_spec env n _ c).2.2 j]
  simp only [scoresAt, List.length_map, List.length_range, and_self]
  by_cases h : j < n
  · simp [h]
  · have : (List.range n)[j]? = none := by simp; omega
    simp [h, this]

theorem size_floats (n : Nat) (h : n < 2 ^ 62) : (n * 4) % 2 ^ 64 / 4 = n := by
  omega

theorem npixels_lt (w h : Nat) : npixels w h < 2 ^ 32 := by
  unfold npixels; omega

theorem size_samples (n : Nat) (h : n < 2 ^ 32) : (n * 3 * 4) % 2 ^ 64 / 4 = 3 * n := by
  omega

theorem npixels_mod (a b : Nat) : npixels (a % 2 ^ 32) (b % 2 ^ 32) = npixels a b := by
  simp [npixels]

theorem load_ok (env : Env) (p : String) (t : TiffFile) (w : World) (h : decodes t = true) :
    loadImageAndPreprocess env p t w =
      .ret ⟨⟨.NHWC, 1, 3, toInt32 (t.height % 2 ^ 32), toInt32 (t.width % 2 ^ 32)⟩,
            ⟨w.allocated.length, normalizeLoop t.raster (npixels t.width t.height)
              ((List.range (3 * npixels t.width t.height)).map env.junk)⟩,
            1, toInt32 (t.height % 2 ^ 32), toInt32 (t.width % 2 ^ 32)⟩
        { w with
          tiffOpened := w.tiffOpened ++ [p]
          descriptors := w.descriptors ++
            [⟨.NHWC, 1, 3, toInt32 (t.height % 2 ^ 32), toInt32 (t.width % 2 ^ 32)⟩]
          allocated := w.allocated ++ [w.allocated.length]
          live := w.live ++ [w.allocated.length] } := by
  simp only [decodes, Bool.and_eq_true] at h
  obtain ⟨⟨h1, h2⟩, h3⟩ := h
  simp only [loadImageAndPreprocess, h1, h2, h3, cudaMallocManaged, npixels_mod,
    size_samples _ (npixels_lt _ _)]
  rfl

/-! ## Lemmas: the directory loop -/

theorem batchLoop_skip (env : Env) (hd : CudnnHandle) (nc : Nat) (e : DirEntry)
    (rest : List DirEntry) (w : World) (hq : qualifies e.path = false) :
    batchLoop env hd nc (e :: rest) w =
      batchLoop env hd nc rest { w with visited := w.visited ++ [e.path] } := by
  simp [batchLoop, hq]

theorem batchLoop_file (env : Env) (hd : CudnnHandle) (nc : Nat) (hnc : nc < 2 ^ 62)
    (e : DirEntry) (rest : List DirEntry) (w : World) (hq : qualifies e.path = true)
    (hdec : decodes e.tiff = true) (hl : w.live = []) :
    batchLoop env hd nc (e :: rest) w = batchLoop env hd nc rest (afterFile env nc e w) := by
  rw [batchLoop]
  simp only [hq, if_true, load_ok _ _ _ _ hdec, runCuDnnModel, cudaMallocManaged,
      size_floats nc hnc, randLoop_data, (randLoop_spec env nc _ _).1]
  simp [cudaFree, hl, print_eq, afterFile, Function.comp_def]

theorem batchLoop_decoding (env : Env) (hd : CudnnHandle) (nc : Nat) (hnc : nc < 2 ^ 62) :
    ∀ (dir : List DirEntry) (w : World), allDecode dir → w.live = [] →
      ∃ w', (∀ rest, batchLoop env hd nc (dir ++ rest) w = batchLoop env hd nc rest w') ∧
        LoopPost env nc dir w w' := by
  intro dir
  induction dir with
  | nil =>
    intro w _ hl
    refine ⟨w, fun rest => rfl, ?_⟩
    constructor <;> simp [qualifying, recordsSeq, hl]
    cases hr : w.report <;> simp [concat]
  | cons e es ih =>
    intro w hall hl
    have hall2 : allDecode es := fun x hx => hall x (List.mem_cons_of_mem _ hx)
    by_cases hq : qualifies e.path = true
    · have hdec := hall e (List.mem_cons_self _ _) hq
      obtain ⟨w', hrest, hp⟩ := ih (afterFile env nc e w) hall2 rfl
      refine ⟨w', fun rest => ?_, ?_⟩
      · rw [List.cons_append, batchLoop_file env hd nc hnc e _ w hq hdec hl, hrest]
      · have hqs : qualifying (e :: es) = e :: qualifying es := by simp [qualifying, hq]
        constructor
        · exact hp.live
        · rw [hp.report, hqs]
          cases hr : w.report <;> simp [afterFile, hr, recordsSeq, concat, String.append_assoc]
        · rw [hp.randCalls, hqs]; simp [afterFile]; ring
        · rw [hp.allocated, hqs]
          simp [afterFile, Nat.mul_add, List.range'_succ]
        · rw [hp.freed, hqs]
          simp [afterFile, Nat.mul_add, List.range'_succ]
        · rw [hp.badFrees]; rfl
        · rw [hp.fileStarts, hqs]; simp [afterFile, List.replicate_succ]
        · rw [hp.visited]; simp [afterFile]
        · rw [hp.tiffOpened, hqs]; simp [afterFile]
        · rw [hp.cout]; rfl
        · rw [hp.cerr]; rfl
        · rw [hp.handlesCreated]; rfl
        · rw [hp.handlesDestroyed]; rfl
        · rw [hp.reportClosed]; rfl
        · rw [hp.terminated]; rfl
        · intro _
          exact hp.reportFile (by cases hr : w.report <;> simp [afterFile, hr])
    · have hq : qualifies e.path = false := by simpa using hq
      obtain ⟨w', hrest, hp⟩ := ih { w with visited := w.visited ++ [e.path] } hall2 hl
      refine ⟨w', fun rest => ?_, ?_⟩
      · rw [List.cons_append, batchLoop_skip env hd nc e _ w hq, hrest]
      · have hqs : qualifying (e :: es) = qualifying es := by simp [qualifying, hq]
        constructor
        · exact hp.live
        · rw [hp.report, hqs]
        · rw [hp.randCalls, hqs]
        · rw [hp.allocated, hqs]
        · rw [hp.freed, hqs]
        · rw [hp.badFrees]
        · rw [hp.fileStarts, hqs]
        · rw [hp.visited]; simp
        · rw [hp.tiffOpened, hqs]
        · rw [hp.cout]
        · rw [hp.cerr]
        · rw [hp.handlesCreated]
        · rw [hp.handlesDestroyed]
        · rw [hp.reportClosed]
        · rw [hp.terminated]
        · exact hp.reportFile

theorem load_fail (env : Env) (p : String) (t : TiffFile) (w : World)
    (h : decodes t = false) :
    ∃ msg, loadImageAndPreprocess env p t w =
      .exit 1 { w with tiffOpened := w.tiffOpened ++ [p], cerr := w.cerr ++ [msg] } := by
  by_cases h1 : t.opens = true
  · by_cases h2 : t.mallocOk = true
    · have h3 : t.readOk = false := by simpa [decodes, h1, h2] using h
      exact ⟨_, by simp [loadImageAndPreprocess, h1, h2, h3]; rfl⟩
    · exact ⟨_, by simp [loadImageAndPreprocess, h1, h2]; rfl⟩
  · exact ⟨_, by simp [loadImageAndPreprocess, h1]; rfl⟩

theorem batchLoop_abort (env : Env) (hd : CudnnHandle) (nc : Nat) (e : DirEntry)
    (rest : List DirEntry) (w : World) (hq : qualifies e.path = true)
    (hdec : decodes e.tiff = false) :
    ∃ msg, batchLoop env hd nc (e :: rest) w =
      .exit 1 { w with
        visited := w.visited ++ [e.path]
        fileStarts := w.fileStarts ++ [w.live]
        tiffOpened := w.tiffOpened ++ [e.path]
        cerr := w.cerr ++ [msg] } := by
  obtain ⟨msg, hm⟩ := load_fail env e.path e.tiff
    { w with visited := w.visited ++ [e.path], fileStarts := w.fileStarts ++ [w.live] } hdec
  refine ⟨msg, ?_⟩
  rw [batchLoop]
  simp only [hq, if_true, hm]

theorem first_failure (dir : List DirEntry) (h : ¬ allDecode dir) :
    ∃ pre bad post, dir = pre ++ bad :: post ∧ allDecode pre ∧
      qualifies bad.path = true ∧ decodes bad.tiff = false := by
  induction dir with
  | nil => exact absurd (fun e he => by cases he) h
  | cons e es ih =>
    by_cases he : qualifies e.path = true → decodes e.tiff = true
    · have hes : ¬ allDecode es := by
        intro hall
        apply h
        intro x hx
        rcases List.mem_cons.mp hx with rfl | hx
        · exact he
        · exact hall x hx
      obtain ⟨pre, bad, post, hd, hpre, hq, hb⟩ := ih hes
      refine ⟨e :: pre, bad, post, by simp [hd], ?_, hq, hb⟩
      intro x hx
      rcases List.mem_cons.mp hx with rfl | hx
      · exact he
      · exact hpre x hx
    · refine ⟨[], e, es, rfl, ?_, ?_, ?_⟩
      · intro x hx; cases hx
      · by_contra hc; exact he (fun hq => absurd hq hc)
      · by_contra hc
        exact he (fun _ => by simpa using hc)

theorem main_run (env : Env) (argv : List String) (dir : List DirEntry)
    (h : 3 ≤ argv.length) :
    main env argv (some dir) =
      match batchLoop env ⟨env.cudnnCreateOk⟩ 10 dir (startWorld env) with
      | .exit code w => (code, w)
      | .ret _ w =>
        (0, { w with handlesDestroyed := w.handlesDestroyed + 1,
                     cout := w.cout ++ ["Destroyed cuDNN handle."],
                     reportFile := w.report,
                     reportClosed := true }) := by
  have h' : ¬ argv.length < 3 := by omega
  simp only [main, h', if_false, createCudaHandleAndOutputHWSpecs, startWorld]
  rfl

theorem main_allDecode (env : Env) (argv : List String) (dir : List DirEntry)
    (h : 3 ≤ argv.length) (hall : allDecode dir) :
    ∃ w', LoopPost env 10 dir (startWorld env) w' ∧
      main env argv (some dir) =
        (0, { w' with handlesDestroyed := w'.handlesDestroyed + 1,
                      cout := w'.cout ++ ["Destroyed cuDNN handle."],
                      reportFile := w'.report,
                      reportClosed := true }) := by
  obtain ⟨w', hrest, hp⟩ := batchLoop_decoding env ⟨env.cudnnCreateOk⟩ 10 (by norm_num) dir
    (startWorld env) hall rfl
  refine ⟨w', hp, ?_⟩
  have := hrest []
  rw [List.append_nil] at this
  rw [main_run env argv dir h, this]
  rfl

theorem main_failure (env : Env) (argv : List String) (pre post : List DirEntry)
    (bad : DirEntry) (h : 3 ≤ argv.length) (hall : allDecode pre)
    (hq : qualifies bad.path = true) (hdec : decodes bad.tiff = false) :
    ∃ w' msg, LoopPost env 10 pre (startWorld env) w' ∧
      main env argv (some (pre ++ bad :: post)) =
        (1, { w' with
          visited := w'.visited ++ [bad.path]
          fileStarts := w'.fileStarts ++ [w'.live]
          tiffOpened := w'.tiffOpened ++ [bad.path]
          cerr := w'.cerr ++ [msg] }) := by
  obtain ⟨w', hrest, hp⟩ := batchLoop_decoding env ⟨env.cudnnCreateOk⟩ 10 (by norm_num) pre
    (startWorld env) hall rfl
  obtain ⟨msg, hm⟩ := batchLoop_abort env ⟨env.cudnnCreateOk⟩ 10 bad post w' hq hdec
  refine ⟨w', msg, hp, ?_⟩
  rw [main_run env argv _ h, hrest, hm]

/-! ## Lemmas: channels, samples and concrete inputs -/

theorem flushedPrefix_of_short (B : Nat) (text : String) (h : text.data.length < B) :
    flushedPrefix B text = "" := by
  unfold flushedPrefix
  have hB : B ≠ 0 := by omega
  rw [if_neg hB, Nat.div_eq_of_lt h]
  rfl

theorem flushedPrefix_empty (B : Nat) : flushedPrefix B "" = "" := by
  by_cases hB : B = 0
  · simp [flushedPrefix, hB]
  · exact flushedPrefix_of_short B "" (Nat.pos_of_ne_zero hB)

theorem scores_first_file :
    scoresAt oneDeviceEnv 10 0 = [0, 1 / 6, 1 / 3, 1 / 2, 2 / 3, 5 / 6, 1, 0, 1 / 6, 1 / 3] := by
  simp only [scoresAt, oneDeviceEnv, List.range, List.range.loop, List.map]
  norm_num

theorem record_first_file :
    recordText oneDeviceEnv "in/white.tiff" (scoresAt oneDeviceEnv 10 0) =
      "File: in/white.tiff\nPredicted class: 6\nClass probabilities: ? ? ? ? ? ? ? ? ? ? \n\n" := by
  rw [scores_first_file]
  have hm : max_element [0, 1 / 6, 1 / 3, 1 / 2, 2 / 3, 5 / 6, 1, 0, 1 / 6, 1 / 3] = 6 := by
    simp only [max_element, max_element_loop]
    norm_num
  simp only [recordText, hm, List.map, concat, oneDeviceEnv, stubFmt]
  norm_num
  decide

theorem main_no_listing (env : Env) (argv : List String) (h : 3 ≤ argv.length) :
    main env argv none = (abortStatus, { startWorld env with terminated := true }) := by
  have h' : ¬ argv.length < 3 := by omega
  simp only [main, h', if_false, createCudaHandleAndOutputHWSpecs, startWorld]
  rfl

theorem npixels_of_fit (a b : Nat) (hfit : a * b < 2 ^ 32) : npixels a b = a * b := by
  unfold npixels
  rcases Nat.eq_zero_or_pos b with hb | hb
  · simp [hb]
  · rcases Nat.eq_zero_or_pos a with ha | ha
    · simp [ha]
    · have h1 : a < 2 ^ 32 := lt_of_le_of_lt (Nat.le_mul_of_pos_right _ hb) hfit
      have h2 : b < 2 ^ 32 := lt_of_le_of_lt (Nat.le_mul_of_pos_left _ ha) hfit
      rw [Nat.mod_eq_of_lt h1, Nat.mod_eq_of_lt h2, Nat.mod_eq_of_lt hfit]

theorem TIFFGetR_eq (x : Nat) : TIFFGetR x = x % 256 :=
  Nat.and_pow_two_sub_one_eq_mod x 8

theorem TIFFGetG_eq (x : Nat) : TIFFGetG x = x / 2 ^ 8 % 256 := by
  unfold TIFFGetG
  rw [Nat.shiftRight_eq_div_pow]
  exact Nat.and_pow_two_sub_one_eq_mod _ 8

theorem TIFFGetB_eq (x : Nat) : TIFFGetB x = x / 2 ^ 16 % 256 := by
  unfold TIFFGetB
  rw [Nat.shiftRight_eq_div_pow]
  exact Nat.and_pow_two_sub_one_eq_mod _ 8

theorem channelAt_le (raster : Nat → Nat) (j : Nat) : channelAt raster j ≤ 255 := by
  unfold channelAt
  split_ifs
  · rw [TIFFGetR_eq]; omega
  · rw [TIFFGetG_eq]; omega
  · rw [TIFFGetB_eq]; omega

theorem channelAt_congr (r1 r2 : Nat → Nat) (j : Nat)
    (h : r1 (j / 3) % 2 ^ 24 = r2 (j / 3) % 2 ^ 24) : channelAt r1 j = channelAt r2 j := by
  unfold channelAt
  simp only [TIFFGetR_eq, TIFFGetG_eq, TIFFGetB_eq]
  split_ifs <;> omega

theorem input_sample (env : Env) (raster : Nat → Nat) (n j : Nat) :
    (normalizeLoop raster n ((List.range (3 * n)).map env.junk))[j]? =
      if j < 3 * n then some ((channelAt raster j : ℚ) / 255) else none := by
  rw [normalizeLoop_getElem? raster n _ (by simp) j]
  split_ifs with h
  · rfl
  · simp; omega

theorem input_length (env : Env) (raster : Nat → Nat) (n : Nat) :
    (normalizeLoop raster n ((List.range (3 * n)).map env.junk)).length = 3 * n := by
  rw [normalizeLoop_length]; simp

theorem load_length (env : Env) (p : String) (t : TiffFile) (w : World)
    (h : decodes t = true) :
    ∃ img w', loadImageAndPreprocess env p t w = .ret img w' ∧
      img.input_data.data.length = 3 * npixels t.width t.height :=
  ⟨_, _, load_ok env p t w h, input_length env _ _⟩

theorem recordsSeq_length (env : Env) (nc : Nat) (qs : List DirEntry) :
    ∀ k, (recordsSeq env nc k qs).length = qs.length := by
  induction qs with
  | nil => intro k; rfl
  | cons e es ih => intro k; simp [recordsSeq, ih]

theorem qualifying_eq_filter (dir : List DirEntry) :
    qualifying dir =
      dir.filter fun e => decide (extension e.path = ".tiff" ∨ extension e.path = ".tif") := by
  unfold qualifying
  congr 1
  funext e
  rw [Bool.eq_iff_iff]
  simp [qualifies]

theorem allDecode_sampleDir : allDecode sampleDir := by
  intro e he
  simp only [sampleDir, List.mem_cons, List.mem_singleton, List.not_mem_nil, or_false] at he
  rcases he with rfl | rfl | rfl | rfl <;> decide

theorem allDecode_of_none (dir : List DirEntry) (h : ∀ e ∈ dir, qualifies e.path = false) :
    allDecode dir := by
  intro e he hq
  rw [h e he] at hq
  cases hq

theorem qualifying_of_none (dir : List DirEntry) (h : ∀ e ∈ dir, qualifies e.path = false) :
    qualifying dir = [] := by
  unfold qualifying
  rw [List.filter_eq_nil_iff]
  intro e he
  simp [h e he]

theorem not_allDecode_corruptThenValid : ¬ allDecode corruptThenValid := by
  intro h
  have := h ⟨"in/bad.tiff", corruptTiff⟩ (by simp [corruptThenValid]) (by decide)
  revert this
  decide

theorem max_element_scenario : max_element [1 / 10, 9 / 10, 1 / 5] = 1 := by
  simp only [max_element, max_element_loop]
  norm_num

theorem scenario_text :
    printClassificationResults oneDeviceEnv "" "<path>/white.tiff" [1 / 10, 9 / 10, 1 / 5]
      = "File: <path>/white.tiff\nPredicted class: 1\nClass probabilities: 0.1 0.9 0.2 \n\n" := by
  rw [print_eq]
  simp only [recordText, max_element_scenario, List.map, concat, oneDeviceEnv, stubFmt]
  norm_num
  decide

/-! ## The report record (C1, C2) -/

/-- C1: on a non-empty score vector the index written on the `Predicted class:` line is
a position of the maximum score, and every earlier position holds a strictly smaller
score (so it is the lowest position of the maximum). -/
theorem predicted_class_is_first_maximum (env : Env) (out file_name : String)
    (scores : List ℚ) (h : scores ≠ []) :
    ∃ v, scores[max_element scores]? = some v ∧
      (∀ (j : Nat) (x : ℚ), scores[j]? = some x → x ≤ v) ∧
      (∀ (j : Nat) (x : ℚ), j < max_element scores → scores[j]? = some x → x < v) ∧
      printClassificationResults env out file_name scores =
        out ++ ("File: " ++ file_name ++ "\n" ++
          ("Predicted class: " ++ toString (max_element scores) ++ "\n") ++
          ("Class probabilities: " ++ concat (scores.map fun x => env.fmt x ++ " ") ++
            "\n\n")) := by
  obtain ⟨v, h1, h2, h3⟩ := max_element_spec scores h
  exact ⟨v, h1, h2, h3, print_eq env out file_name scores⟩

/-- C1 at the scores of the end-to-end scenario. -/
theorem predicted_class_is_first_maximum_witness :
    ([1 / 10, 9 / 10, 1 / 5] : List ℚ) ≠ [] ∧
    ∃ v, ([1 / 10, 9 / 10, 1 / 5] : List ℚ)[max_element [1 / 10, 9 / 10, 1 / 5]]? = some v ∧
      (∀ (j : Nat) (x : ℚ), ([1 / 10, 9 / 10, 1 / 5] : List ℚ)[j]? = some x → x ≤ v) ∧
      (∀ (j : Nat) (x : ℚ), j < max_element [1 / 10, 9 / 10, 1 / 5] →
        ([1 / 10, 9 / 10, 1 / 5] : List ℚ)[j]? = some x → x < v) ∧
      printClassificationResults oneDeviceEnv "" "f" [1 / 10, 9 / 10, 1 / 5] =
        "" ++ ("File: " ++ "f" ++ "\n" ++
          ("Predicted class: " ++ toString (max_element [1 / 10, 9 / 10, 1 / 5]) ++ "\n") ++
          ("Class probabilities: " ++
            concat (([1 / 10, 9 / 10, 1 / 5] : List ℚ).map fun x => oneDeviceEnv.fmt x ++ " ") ++
            "\n\n")) :=
  ⟨by simp, predicted_class_is_first_maximum oneDeviceEnv "" "f" [1 / 10, 9 / 10, 1 / 5] (by simp)⟩

/-- C2 (as stated) fails: for the scenario scores the third line the program writes ends
with a space after the last score, so the text differs from the specified record. -/
theorem record_scores_joined_by_spaces_counterexample :
    printClassificationResults oneDeviceEnv "" "<path>/white.tiff" [1 / 10, 9 / 10, 1 / 5]
      = "File: <path>/white.tiff\nPredicted class: 1\nClass probabilities: 0.1 0.9 0.2 \n\n" ∧
    recordAsSpecified oneDeviceEnv "<path>/white.tiff" [1 / 10, 9 / 10, 1 / 5]
      = "File: <path>/white.tiff\nPredicted class: 1\nClass probabilities: 0.1 0.9 0.2\n\n" ∧
    printClassificationResults oneDeviceEnv "" "<path>/white.tiff" [1 / 10, 9 / 10, 1 / 5]
      ≠ "" ++ recordAsSpecified oneDeviceEnv "<path>/white.tiff" [1 / 10, 9 / 10, 1 / 5] := by
  have h2 : recordAsSpecified oneDeviceEnv "<path>/white.tiff" [1 / 10, 9 / 10, 1 / 5]
      = "File: <path>/white.tiff\nPredicted class: 1\nClass probabilities: 0.1 0.9 0.2\n\n" := by
    simp only [recordAsSpecified, max_element_scenario, List.map, oneDeviceEnv, stubFmt]
    norm_num
    decide
  refine ⟨scenario_text, h2, ?_⟩
  rw [scenario_text, h2]
  decide

/-- C2 (amended): the text appended for a file is the line `File: f`, the line
`Predicted class: k` with `k` the arg-max, the line `Class probabilities: ` followed by
every rendered score each followed by one space, and one blank line; for the scenario
the third line is `Class probabilities: 0.1 0.9 0.2 ` with a trailing space. -/
theorem record_text_each_score_followed_by_space (env : Env) (out file_name : String)
    (scores : List ℚ) :
    printClassificationResults env out file_name scores =
      out ++ ("File: " ++ file_name ++ "\n" ++
        ("Predicted class: " ++ toString (max_element scores) ++ "\n") ++
        ("Class probabilities: " ++ concat (scores.map fun x => env.fmt x ++ " ") ++ "\n\n")) ∧
    printClassificationResults oneDeviceEnv "" "<path>/white.tiff" [1 / 10, 9 / 10, 1 / 5]
      = "File: <path>/white.tiff\nPredicted class: 1\nClass probabilities: 0.1 0.9 0.2 \n\n" :=
  ⟨print_eq env out file_name scores, scenario_text⟩

/-! ## The batch loop (C3, C4) -/

/-- C3: when every qualifying entry decodes, the run ends with exit code 0 and the report
is the concatenation of one record per entry whose extension is exactly `.tiff` or
`.tif`, in iteration order; only those entries are handed to the decoder, nothing is
written to the error stream, the report is closed, `image.png` and `photo.TIFF` do
not qualify, and the report file holds all the inserted text. -/
theorem one_record_per_qualifying_entry (env : Env) (argv : List String)
    (dir : List DirEntry) (hargs : 3 ≤ argv.length) (hall : allDecode dir) :
    (main env argv (some dir)).1 = 0 ∧
    (main env argv (some dir)).2.report = some (concat (recordsSeq env 10 0 (qualifying dir))) ∧
    (recordsSeq env 10 0 (qualifying dir)).length = (qualifying dir).length ∧
    qualifying dir =
      dir.filter (fun e => decide (extension e.path = ".tiff" ∨ extension e.path = ".tif")) ∧
    (main env argv (some dir)).2.tiffOpened = (qualifying dir).map (fun e => e.path) ∧
    (main env argv (some dir)).2.visited = dir.map (fun e => e.path) ∧
    (main env argv (some dir)).2.cerr = [] ∧
    (main env argv (some dir)).2.reportClosed = true ∧
    qualifies "image.png" = false ∧ qualifies "photo.TIFF" = false ∧
    (main env argv (some dir)).2.reportFile = (main env argv (some dir)).2.report := by
  obtain ⟨w', hp, hm⟩ := main_allDecode env argv dir hargs hall
  rw [hm]
  refine ⟨rfl, ?_, recordsSeq_length env 10 _ 0, qualifying_eq_filter dir, ?_, ?_, ?_, rfl,
    by decide, by decide, rfl⟩
  · simp [hp.report, startWorld]
  · simp [hp.tiffOpened, startWorld]
  · simp [hp.visited, startWorld]
  · simp [hp.cerr, startWorld]

/-- C3 on a directory with two images, a `.png` and a `.TIFF` entry. -/
theorem one_record_per_qualifying_entry_witness :
    3 ≤ sampleArgv.length ∧ allDecode sampleDir ∧
    (main oneDeviceEnv sampleArgv (some sampleDir)).2.tiffOpened =
      (qualifying sampleDir).map (fun e => e.path) ∧
    (qualifying sampleDir).map (fun e => e.path) = ["in/white.tiff", "in/scan.tif"] :=
  ⟨by decide, allDecode_sampleDir,
    (one_record_per_qualifying_entry oneDeviceEnv sampleArgv sampleDir (by decide)
      allDecode_sampleDir).2.2.2.2.1, by decide⟩

/-- Fail-fast on the inserted text: when some qualifying entry fails to decode, the
listing splits at the first such entry `bad`; the run ends with exit code 1, the text
inserted into the stream is exactly the records of the qualifying entries before `bad`,
the loop reaches no entry after `bad`, `main` never reaches its teardown, and the report
file holds only the whole buffers of that text. -/
theorem fail_fast_inserted_text (env : Env) (argv : List String)
    (dir : List DirEntry) (hargs : 3 ≤ argv.length) (hfail : ¬ allDecode dir) :
    ∃ pre bad post, dir = pre ++ bad :: post ∧ allDecode pre ∧
      qualifies bad.path = true ∧ decodes bad.tiff = false ∧
      (main env argv (some dir)).1 = 1 ∧
      (main env argv (some dir)).2.report =
        some (concat (recordsSeq env 10 0 (qualifying pre))) ∧
      (main env argv (some dir)).2.reportFile =
        some (flushedPrefix env.bufSize (concat (recordsSeq env 10 0 (qualifying pre)))) ∧
      (recordsSeq env 10 0 (qualifying pre)).length = (qualifying pre).length ∧
      (main env argv (some dir)).2.visited = pre.map (fun e => e.path) ++ [bad.path] ∧
      (main env argv (some dir)).2.tiffOpened =
        (qualifying pre).map (fun e => e.path) ++ [bad.path] ∧
      (main env argv (some dir)).2.handlesDestroyed = 0 ∧
      (main env argv (some dir)).2.reportClosed = false := by
  obtain ⟨pre, bad, post, hd, hpre, hq, hb⟩ := first_failure dir hfail
  obtain ⟨w', msg, hp, hm⟩ := main_failure env argv pre post bad hargs hpre hq hb
  refine ⟨pre, bad, post, hd, hpre, hq, hb, ?_⟩
  have hr : w'.report = some (concat (recordsSeq env 10 0 (qualifying pre))) := by
    simp [hp.report, startWorld]
  have hf := hp.reportFile (by simp [startWorld, flushedPrefix_empty])
  rw [hd, hm]
  refine ⟨rfl, hr, ?_, recordsSeq_length env 10 _ 0, ?_, ?_, ?_, ?_⟩
  · show w'.reportFile = _
    rw [hf, hr]; rfl
  · simp [hp.visited, startWorld]
  · simp [hp.tiffOpened, startWorld]
  · simp [hp.handlesDestroyed, startWorld]
  · simp [hp.reportClosed, startWorld]

/-- A corrupt file followed by a valid one: the run ends with exit code 1 at the corrupt
file, the valid file is never opened, and nothing is inserted into the report, whose file
stays empty. -/
theorem corrupt_then_valid_writes_nothing :
    ¬ allDecode corruptThenValid ∧
    (main oneDeviceEnv sampleArgv (some corruptThenValid)).1 = 1 ∧
    (main oneDeviceEnv sampleArgv (some corruptThenValid)).2.report = some "" ∧
    (main oneDeviceEnv sampleArgv (some corruptThenValid)).2.reportFile = some "" ∧
    (main oneDeviceEnv sampleArgv (some corruptThenValid)).2.tiffOpened = ["in/bad.tiff"] :=
  ⟨not_allDecode_corruptThenValid, by decide, by decide, by decide, by decide⟩

/-- C4 at a valid file followed by a corrupt one, with a stream buffer of 8192
characters: the run ends with exit code 1 after the record of the valid file has been
inserted into the stream, the report is never closed, and the report file is empty, so
it does not hold the record of the qualifying entry that preceded the failure. -/
theorem record_before_failure_not_in_file :
    qualifies "in/white.tiff" = true ∧ decodes whiteTiff = true ∧
    qualifies "in/bad.tiff" = true ∧ decodes corruptTiff = false ∧
    oneDeviceEnv.bufSize = 8192 ∧
    (main oneDeviceEnv sampleArgv (some validThenCorrupt)).1 = 1 ∧
    (main oneDeviceEnv sampleArgv (some validThenCorrupt)).2.report =
      some "File: in/white.tiff\nPredicted class: 6\nClass probabilities: ? ? ? ? ? ? ? ? ? ? \n\n" ∧
    (main oneDeviceEnv sampleArgv (some validThenCorrupt)).2.reportFile = some "" ∧
    (main oneDeviceEnv sampleArgv (some validThenCorrupt)).2.reportClosed = false := by
  have hall : allDecode [(⟨"in/white.tiff", whiteTiff⟩ : DirEntry)] := by
    intro e he _
    rw [List.mem_singleton] at he
    subst he
    decide
  have hqs : qualifying [(⟨"in/white.tiff", whiteTiff⟩ : DirEntry)] =
      [⟨"in/white.tiff", whiteTiff⟩] := by
    unfold qualifying
    rw [List.filter_cons_of_pos (by decide)]
    rfl
  obtain ⟨w', msg, hp, hm⟩ := main_failure oneDeviceEnv sampleArgv
    [⟨"in/white.tiff", whiteTiff⟩] [] ⟨"in/bad.tiff", corruptTiff⟩ (by decide) hall
    (by decide) (by decide)
  have hdir : validThenCorrupt =
      [(⟨"in/white.tiff", whiteTiff⟩ : DirEntry)] ++ ⟨"in/bad.tiff", corruptTiff⟩ :: [] := rfl
  have hr : w'.report =
      some "File: in/white.tiff\nPredicted class: 6\nClass probabilities: ? ? ? ? ? ? ? ? ? ? \n\n" := by
    rw [hp.report, hqs]
    simp only [startWorld, recordsSeq, concat, Option.map_some']
    rw [record_first_file]
    decide
  have hf := hp.reportFile (by simp [startWorld, flushedPrefix_empty])
  rw [hdir, hm]
  refine ⟨by decide, by decide, by decide, by decide, rfl, rfl, hr, ?_, ?_⟩
  · show w'.reportFile = _
    rw [hf, hr]
    decide
  · simp [hp.reportClosed, startWorld]

/-! ## The decoder (C5, C6, C7) -/

/-- C5: a file that decodes yields a buffer of `3 * npixels` samples; sample `j` is the
8-bit channel value it is computed from divided by 255, it lies in `[0, 1]`, a channel
value of 255 gives exactly 1 and a channel value of 0 gives exactly 0. -/
theorem samples_are_channel_over_255 (env : Env) (p : String) (t : TiffFile) (w : World)
    (h : decodes t = true) :
    ∃ img w', loadImageAndPreprocess env p t w = .ret img w' ∧
      img.input_data.data.length = 3 * npixels t.width t.height ∧
      ∀ j, j < img.input_data.data.length →
        channelAt t.raster j ≤ 255 ∧
        img.input_data.data[j]? = some ((channelAt t.raster j : ℚ) / 255) ∧
        (0 : ℚ) ≤ (channelAt t.raster j : ℚ) / 255 ∧
        (channelAt t.raster j : ℚ) / 255 ≤ 1 ∧
        (channelAt t.raster j = 255 → img.input_data.data[j]? = some 1) ∧
        (channelAt t.raster j = 0 → img.input_data.data[j]? = some 0) := by
  refine ⟨_, _, load_ok env p t w h, input_length env _ _, ?_⟩
  intro j hj
  have hj' : j < 3 * npixels t.width t.height := by
    simpa [input_length] using hj
  have hs := input_sample env t.raster (npixels t.width t.height) j
  rw [if_pos hj'] at hs
  have hle := channelAt_le t.raster j
  have hq : (channelAt t.raster j : ℚ) ≤ 255 := by exact_mod_cast hle
  refine ⟨hle, hs, by positivity, ?_, ?_, ?_⟩
  · rw [div_le_one (by norm_num)]; exact hq
  · intro h255
    show (normalizeLoop _ _ _)[j]? = _
    rw [hs, h255]; norm_num
  · intro h0
    show (normalizeLoop _ _ _)[j]? = _
    rw [hs, h0]; norm_num

/-- C5 on the 2×2 all-white image: twelve samples, and sample 0 is exactly 1. -/
theorem samples_are_channel_over_255_witness :
    decodes whiteTiff = true ∧
    ∃ img w', loadImageAndPreprocess oneDeviceEnv "in/white.tiff" whiteTiff {} = .ret img w' ∧
      img.input_data.data.length = 3 * npixels whiteTiff.width whiteTiff.height ∧
      ∀ j, j < img.input_data.data.length →
        channelAt whiteTiff.raster j ≤ 255 ∧
        img.input_data.data[j]? = some ((channelAt whiteTiff.raster j : ℚ) / 255) ∧
        (0 : ℚ) ≤ (channelAt whiteTiff.raster j : ℚ) / 255 ∧
        (channelAt whiteTiff.raster j : ℚ) / 255 ≤ 1 ∧
        (channelAt whiteTiff.raster j = 255 → img.input_data.data[j]? = some 1) ∧
        (channelAt whiteTiff.raster j = 0 → img.input_data.data[j]? = some 0) :=
  ⟨by decide,
    samples_are_channel_over_255 oneDeviceEnv "in/white.tiff" whiteTiff {} (by decide)⟩

/-- Without wrap-around the layout is as specified: when the file decodes and
`width * height` fits 32 bits, for every pixel index `i` below `width * height` samples
`3i`, `3i+1`, `3i+2` are the red (bits 0-7), green (bits 8-15) and blue (bits 16-23)
channels of `raster[i]` divided by 255; a second file with the same header whose pixels
agree with the first on bits 0-23 yields the same buffer. -/
theorem interleaved_rgb_without_wrap (env : Env) (p : String) (t : TiffFile) (w : World)
    (h : decodes t = true) (hfit : t.width * t.height < 2 ^ 32) :
    ∃ img w', loadImageAndPreprocess env p t w = .ret img w' ∧
      (∀ i, i < t.width * t.height →
        img.input_data.data[3 * i]? = some (((t.raster i % 256 : Nat) : ℚ) / 255) ∧
        img.input_data.data[3 * i + 1]? = some (((t.raster i / 2 ^ 8 % 256 : Nat) : ℚ) / 255) ∧
        img.input_data.data[3 * i + 2]? = some (((t.raster i / 2 ^ 16 % 256 : Nat) : ℚ) / 255)) ∧
      (∀ x, TIFFGetR x = x % 256 ∧ TIFFGetG x = x / 2 ^ 8 % 256 ∧
        TIFFGetB x = x / 2 ^ 16 % 256) ∧
      (∀ (t2 : TiffFile) (w2 : World), decodes t2 = true →
        t2.width = t.width → t2.height = t.height →
        (∀ i, i < t.width * t.height → t2.raster i % 2 ^ 24 = t.raster i % 2 ^ 24) →
        ∃ img2 w2', loadImageAndPreprocess env p t2 w2 = .ret img2 w2' ∧
          img2.input_data.data = img.input_data.data) := by
  have hn := npixels_of_fit t.width t.height hfit
  refine ⟨_, _, load_ok env p t w h, ?_, fun x => ⟨TIFFGetR_eq x, TIFFGetG_eq x, TIFFGetB_eq x⟩,
    ?_⟩
  · intro i hi
    rw [← hn] at hi
    have e0 : channelAt t.raster (3 * i) = t.raster i % 256 := by
      have a : 3 * i % 3 = 0 := by omega
      have b : 3 * i / 3 = i := by omega
      simp [channelAt, a, b, TIFFGetR_eq]
    have e1 : channelAt t.raster (3 * i + 1) = t.raster i / 2 ^ 8 % 256 := by
      have a : (3 * i + 1) % 3 = 1 := by omega
      have b : (3 * i + 1) / 3 = i := by omega
      simp [channelAt, a, b, TIFFGetG_eq]
    have e2 : channelAt t.raster (3 * i + 2) = t.raster i / 2 ^ 16 % 256 := by
      have a : (3 * i + 2) % 3 = 2 := by omega
      have b : (3 * i + 2) / 3 = i := by omega
      simp [channelAt, a, b, TIFFGetB_eq]
    refine ⟨?_, ?_, ?_⟩
    · show (normalizeLoop _ _ _)[3 * i]? = _
      rw [input_sample, if_pos (by omega), e0]
    · show (normalizeLoop _ _ _)[3 * i + 1]? = _
      rw [input_sample, if_pos (by omega), e1]
    · show (normalizeLoop _ _ _)[3 * i + 2]? = _
      rw [input_sample, if_pos (by omega), e2]
  · intro t2 w2 h2 hw hh hr
    refine ⟨_, _, load_ok env p t2 w2 h2, ?_⟩
    show normalizeLoop _ _ _ = normalizeLoop _ _ _
    rw [hw, hh]
    apply List.ext_getElem?
    intro j
    rw [input_sample, input_sample]
    split_ifs with hj
    · rw [channelAt_congr t2.raster t.raster j (hr (j / 3) (by rw [← hn]; omega))]
    · rfl

/-- C6 at a header of 3 × 1431655766 pixels: both values fit 32 bits and the file
decodes, the raster has 4294967298 pixels, but the program computes `npixels = 2` and
returns a buffer of 6 samples, so pixel index 2, which is below the pixel count, has no
samples 6, 7 and 8. -/
theorem pixel_beyond_wrapped_count_has_no_sample :
    tallTiff.width < 2 ^ 32 ∧ tallTiff.height < 2 ^ 32 ∧ decodes tallTiff = true ∧
    tallTiff.width * tallTiff.height = 4294967298 ∧
    2 < tallTiff.width * tallTiff.height ∧
    npixels tallTiff.width tallTiff.height = 2 ∧
    ∃ img w', loadImageAndPreprocess oneDeviceEnv "in/tall.tiff" tallTiff {} = .ret img w' ∧
      img.input_data.data.length = 6 ∧
      img.input_data.data[3 * 2]? = none ∧
      img.input_data.data[3 * 2 + 1]? = none ∧
      img.input_data.data[3 * 2 + 2]? = none := by
  have hn : npixels tallTiff.width tallTiff.height = 2 := by
    norm_num [npixels, tallTiff]
  have hd : decodes tallTiff = true := by simp [decodes, tallTiff]
  obtain ⟨img, w', h1, h2⟩ := load_length oneDeviceEnv "in/tall.tiff" tallTiff {} hd
  rw [hn] at h2
  refine ⟨by norm_num [tallTiff], by norm_num [tallTiff], hd, by norm_num [tallTiff],
    by norm_num [tallTiff], hn, img, w', h1, h2, ?_, ?_, ?_⟩
  · exact List.getElem?_eq_none (by rw [h2])
  · exact List.getElem?_eq_none (by rw [h2]; omega)
  · exact List.getElem?_eq_none (by rw [h2]; omega)

/-- Without wrap-around the buffer has `width * height * 3` samples. -/
theorem buffer_size_without_wrap (env : Env) (p : String) (t : TiffFile) (w : World)
    (h : decodes t = true) (hfit : t.width * t.height < 2 ^ 32) :
    ∃ img w', loadImageAndPreprocess env p t w = .ret img w' ∧
      img.input_data.data.length = t.width * t.height * 3 := by
  obtain ⟨img, w', h1, h2⟩ := load_length env p t w h
  refine ⟨img, w', h1, ?_⟩
  rw [h2, npixels_of_fit t.width t.height hfit]; ring

/-- C7 at a header of 65537 × 65536 pixels: both values fit 32 bits and the file
decodes, the program computes `npixels = 65536` and returns a buffer of 196608 samples,
while the product of the header values is 4295032832 pixels, that is 12885098496
samples. -/
theorem buffer_size_wraps_at_32_bits :
    wideTiff.width < 2 ^ 32 ∧ wideTiff.height < 2 ^ 32 ∧ decodes wideTiff = true ∧
    wideTiff.width * wideTiff.height = 4295032832 ∧
    npixels wideTiff.width wideTiff.height = 65536 ∧
    ∃ img w', loadImageAndPreprocess oneDeviceEnv "in/wide.tiff" wideTiff {} = .ret img w' ∧
      img.input_data.data.length = 196608 ∧
      img.input_data.data.length ≠ wideTiff.width * wideTiff.height * 3 := by
  have hn : npixels wideTiff.width wideTiff.height = 65536 := by
    norm_num [npixels, wideTiff]
  have hd : decodes wideTiff = true := by simp [decodes, wideTiff]
  obtain ⟨img, w', h1, h2⟩ := load_length oneDeviceEnv "in/wide.tiff" wideTiff {} hd
  rw [hn] at h2
  refine ⟨by norm_num [wideTiff], by norm_num [wideTiff], hd, by norm_num [wideTiff], hn,
    img, w', h1, h2, ?_⟩
  rw [h2]
  norm_num [wideTiff]

/-! ## Resources, acquisition and exit codes (C8, C9, C10) -/

/-- C8: when every qualifying entry decodes, no buffer is live at the start of any
file, and after the loop the `2N` allocations (two per qualifying file) have each been
freed exactly once: the freed ids are the allocated ids, without repetition, no `cudaFree`
hit an id that was not live, and nothing is left live. -/
theorem buffers_allocated_and_released (env : Env) (argv : List String)
    (dir : List DirEntry) (hargs : 3 ≤ argv.length) (hall : allDecode dir) :
    (main env argv (some dir)).2.fileStarts = List.replicate (qualifying dir).length [] ∧
    (main env argv (some dir)).2.allocated = List.range (2 * (qualifying dir).length) ∧
    (main env argv (some dir)).2.freed = (main env argv (some dir)).2.allocated ∧
    (main env argv (some dir)).2.allocated.length = 2 * (qualifying dir).length ∧
    (main env argv (some dir)).2.freed.length = (main env argv (some dir)).2.allocated.length ∧
    (main env argv (some dir)).2.freed.Nodup ∧
    (main env argv (some dir)).2.badFrees = 0 ∧
    (main env argv (some dir)).2.live = [] := by
  obtain ⟨w', hp, hm⟩ := main_allDecode env argv dir hargs hall
  rw [hm]
  have ha : w'.allocated = List.range (2 * (qualifying dir).length) := by
    simp [hp.allocated, startWorld, List.range_eq_range']
  have hf : w'.freed = List.range (2 * (qualifying dir).length) := by
    simp [hp.freed, startWorld, List.range_eq_range']
  refine ⟨?_, ha, by simp [ha, hf], by simp [ha], by simp [ha, hf], ?_, ?_, ?_⟩
  · simp [hp.fileStarts, startWorld]
  · simp [hf, List.nodup_range]
  · simp [hp.badFrees, startWorld]
  · simp [hp.live]

/-- C8 on a directory with two images: four allocations, four releases. -/
theorem buffers_allocated_and_released_witness :
    3 ≤ sampleArgv.length ∧ allDecode sampleDir ∧
    (main oneDeviceEnv sampleArgv (some sampleDir)).2.allocated =
      List.range (2 * (qualifying sampleDir).length) ∧
    (main oneDeviceEnv sampleArgv (some sampleDir)).2.freed =
      (main oneDeviceEnv sampleArgv (some sampleDir)).2.allocated ∧
    (qualifying sampleDir).length = 2 :=
  ⟨by decide, allDecode_sampleDir,
    (buffers_allocated_and_released oneDeviceEnv sampleArgv sampleDir (by decide)
      allDecode_sampleDir).2.1,
    (buffers_allocated_and_released oneDeviceEnv sampleArgv sampleDir (by decide)
      allDecode_sampleDir).2.2.1, by decide⟩

/-- C9 (as stated) fails: with device count 0 and a cuDNN handle that does not
initialise, acquisition still returns a handle, and the run over a directory holding only
`image.png` ends with exit code 0. -/
theorem device_unavailable_is_fatal_counterexample :
    noDeviceEnv.numGPUs = 0 ∧ noDeviceEnv.cudnnCreateOk = false ∧
    (createCudaHandleAndOutputHWSpecs noDeviceEnv {}).2.handlesCreated = 1 ∧
    (main noDeviceEnv sampleArgv (some [⟨"in/image.png", notTiff⟩])).1 = 0 ∧
    (main noDeviceEnv sampleArgv (some [⟨"in/image.png", notTiff⟩])).2.visited = ["in/image.png"] := by
  decide

/-- C9 (amended): acquisition has no failure path. Whatever the device count and the
cuDNN status, `createCudaHandleAndOutputHWSpecs` logs the count and the compute
capability, creates one handle and returns; `main` then opens the report and runs the
loop, and when no entry qualifies the run ends with exit code 0, an empty report, no
file decoded and the handle destroyed. -/
theorem acquisition_never_fails (env : Env) (argv : List String) (dir : List DirEntry)
    (hargs : 3 ≤ argv.length) (hnone : ∀ e ∈ dir, qualifies e.path = false) :
    (createCudaHandleAndOutputHWSpecs env {}).1 = ⟨env.cudnnCreateOk⟩ ∧
    (createCudaHandleAndOutputHWSpecs env {}).2.handlesCreated = 1 ∧
    (createCudaHandleAndOutputHWSpecs env {}).2.cout =
      ["Found " ++ toString env.numGPUs ++ " GPUs.",
       "Compute capability: " ++ toString env.major ++ "." ++ toString env.minor,
       "Created cuDNN handle"] ∧
    (main env argv (some dir)).1 = 0 ∧
    (main env argv (some dir)).2.report = some "" ∧
    (main env argv (some dir)).2.tiffOpened = [] ∧
    (main env argv (some dir)).2.visited = dir.map (fun e => e.path) ∧
    (main env argv (some dir)).2.handlesCreated = 1 ∧
    (main env argv (some dir)).2.handlesDestroyed = 1 := by
  obtain ⟨w', hp, hm⟩ := main_allDecode env argv dir hargs (allDecode_of_none dir hnone)
  have hq := qualifying_of_none dir hnone
  rw [hm]
  refine ⟨rfl, rfl, rfl, rfl, ?_, ?_, ?_, ?_, ?_⟩
  · simp [hp.report, hq, startWorld, recordsSeq, concat]
  · simp [hp.tiffOpened, hq, startWorld]
  · simp [hp.visited, startWorld]
  · simp [hp.handlesCreated, startWorld]
  · simp [hp.handlesDestroyed, startWorld]

/-- C9 (amended) on a machine with no device and a directory holding only `image.png`. -/
theorem acquisition_never_fails_witness :
    3 ≤ sampleArgv.length ∧
    (∀ e ∈ [(⟨"in/image.png", notTiff⟩ : DirEntry)], qualifies e.path = false) ∧
    (main noDeviceEnv sampleArgv (some [⟨"in/image.png", notTiff⟩])).1 = 0 ∧
    (main noDeviceEnv sampleArgv (some [⟨"in/image.png", notTiff⟩])).2.report = some "" :=
  ⟨by decide, by simp; decide,
    (acquisition_never_fails noDeviceEnv sampleArgv [⟨"in/image.png", notTiff⟩] (by decide)
      (by simp; decide)).2.2.2.1,
    (acquisition_never_fails noDeviceEnv sampleArgv [⟨"in/image.png", notTiff⟩] (by decide)
      (by simp; decide)).2.2.2.2.1⟩

/-- C10 (as stated) fails: with both arguments given and an input folder that cannot be
iterated, no file fails to decode (none is ever opened), yet the run does not return 0:
the uncaught exception of the directory iterator ends it in `std::terminate`. -/
theorem exit_code_zero_with_both_arguments_counterexample :
    3 ≤ sampleArgv.length ∧
    (main oneDeviceEnv sampleArgv none).2.tiffOpened = [] ∧
    (main oneDeviceEnv sampleArgv none).2.terminated = true ∧
    (main oneDeviceEnv sampleArgv none).1 = abortStatus ∧
    (main oneDeviceEnv sampleArgv none).1 ≠ 0 := by
  rw [main_no_listing oneDeviceEnv sampleArgv (by decide)]
  exact ⟨by decide, rfl, rfl, rfl, by decide⟩

/-- C10 (amended): with fewer than two arguments after the program name `main` returns 1
having created no handle, opened no report, visited no entry and decoded no file (only
the usage line is written), whatever the input folder; with both arguments, an input
folder that the directory iterator can list and every qualifying entry decoding, it
returns 0. -/
theorem main_exit_codes (env : Env) (argv : List String) (folder : Option (List DirEntry))
    (dir : List DirEntry) :
    (argv.length < 3 →
      (main env argv folder).1 = 1 ∧
      (main env argv folder).2.handlesCreated = 0 ∧
      (main env argv folder).2.report = none ∧
      (main env argv folder).2.reportFile = none ∧
      (main env argv folder).2.visited = [] ∧
      (main env argv folder).2.tiffOpened = [] ∧
      (main env argv folder).2.cout = [] ∧
      (main env argv folder).2.cerr =
        ["Usage: " ++ argv.getD 0 "" ++ " <input_folder> <output_file.txt>"]) ∧
    (3 ≤ argv.length → allDecode dir → (main env argv (some dir)).1 = 0) := by
  constructor
  · intro h
    simp [main, h]
  · intro h hall
    obtain ⟨w', _, hm⟩ := main_allDecode env argv dir h hall
    rw [hm]

/-- C10 (amended) on a command line with one argument and on one with both. -/
theorem main_exit_codes_witness :
    (["classify", "in"].length < 3 ∧
      (main oneDeviceEnv ["classify", "in"] (some sampleDir)).1 = 1 ∧
      (main oneDeviceEnv ["classify", "in"] (some sampleDir)).2.report = none) ∧
    (3 ≤ sampleArgv.length ∧ allDecode sampleDir ∧
      (main oneDeviceEnv sampleArgv (some sampleDir)).1 = 0) :=
  ⟨⟨by decide,
     ((main_exit_codes oneDeviceEnv ["classify", "in"] (some sampleDir) sampleDir).1
       (by decide)).1,
     ((main_exit_codes oneDeviceEnv ["classify", "in"] (some sampleDir) sampleDir).1
       (by decide)).2.2.1⟩,
   ⟨by decide, allDecode_sampleDir,
     (main_exit_codes oneDeviceEnv sampleArgv (some sampleDir) sampleDir).2 (by decide)
       allDecode_sampleDir⟩⟩

end GpuCapstone
